import Mathlib

/-!
Verification of the `pyapplebom` native module (`src/lib.rs`): a PyO3 wrapper
around the external `apple-bom` crate that decodes an Apple BOM byte buffer
into a Python dictionary document, tolerating per-block and per-section
failures.

The wrapper code in `src/lib.rs` is embedded faithfully.  The external
`apple-bom` crate (the crate `apple_bom`: `ParsedBom::parse`, `block_data`,
`BomBlock::try_parse`, `bom_info`, `paths`, `hl_index`, `size64`, `vindex`)
is not part of this repository; its observable behaviour is modelled
abstractly, from the specification, as an environment (`ParsedBom`) whose
fields record the outcome of each underlying call, including the possibility
of a Rust panic (the wrapper catches panics with `catch_unwind`).

Python dictionaries are modelled as ordered association lists with Python's
`set_item` semantics (overwrite in place, else append), so that key presence,
key order and `None`-vs-absent are all observable, as the claims require.
-/

set_option autoImplicit false

namespace PyAppleBom

/-- A Python value as produced by the wrapper: `None`, integers, strings,
booleans, lists and string-keyed dicts (the only shapes `lib.rs` creates). -/
inductive PyValue where
  | none : PyValue
  | int (n : Int) : PyValue
  | str (s : String) : PyValue
  | bool (b : Bool) : PyValue
  | list (xs : List PyValue) : PyValue
  | dict (entries : List (String × PyValue)) : PyValue
  deriving Repr

/-- An ordered Python dictionary with string keys. -/
abbrev Dict := List (String × PyValue)

/-- Python `d[k] = v`: overwrite in place if the key exists, else append. -/
def dictSet (d : Dict) (k : String) (v : PyValue) : Dict :=
  match d with
  | [] => [(k, v)]
  | (k', v') :: rest => if k' = k then (k, v) :: rest else (k', v') :: dictSet rest k v

/-- Python `d.get(k)`: first (only) entry with key `k`, if any. -/
def dictGet (d : Dict) (k : String) : Option PyValue :=
  match d with
  | [] => Option.none
  | (k', v) :: rest => if k' = k then some v else dictGet rest k

@[simp] theorem dictGet_nil (k : String) : dictGet [] k = Option.none := rfl

@[simp] theorem dictGet_cons (k k' : String) (v : PyValue) (d : Dict) :
    dictGet ((k', v) :: d) k = if k' = k then some v else dictGet d k := rfl

@[simp] theorem dictSet_nil (k : String) (v : PyValue) : dictSet [] k v = [(k, v)] := rfl

@[simp] theorem dictSet_cons (k k' : String) (v v' : PyValue) (d : Dict) :
    dictSet ((k', v') :: d) k v =
      if k' = k then (k, v) :: d else (k', v') :: dictSet d k v := rfl

@[simp] theorem dictGet_dictSet_self (d : Dict) (k : String) (v : PyValue) :
    dictGet (dictSet d k v) k = some v := by
  induction d with
  | nil => simp [dictSet, dictGet]
  | cons hd tl ih =>
    obtain ⟨k', v'⟩ := hd
    by_cases h : k' = k <;> simp [dictSet, dictGet, h, ih]

theorem dictGet_dictSet_ne (d : Dict) (k k' : String) (v : PyValue) (h : k' ≠ k) :
    dictGet (dictSet d k v) k' = dictGet d k' := by
  induction d with
  | nil => simp [dictSet, dictGet, h, Ne.symm h]
  | cons hd tl ih =>
    obtain ⟨k'', v''⟩ := hd
    by_cases h2 : k'' = k <;> simp [dictSet, dictGet, h2, h, ih]
    · subst h2; simp [Ne.symm h]

theorem dictSet_ne_nil (d : Dict) (k : String) (v : PyValue) : dictSet d k v ≠ [] := by
  cases d with
  | nil => simp [dictSet]
  | cons hd tl =>
    obtain ⟨k', v'⟩ := hd
    by_cases h : k' = k <;> simp [dictSet, h]

/-- A Rust panic payload (`Box<dyn Any + Send>`): the wrapper recognises
`&str` and `String` payloads, anything else is opaque. -/
inductive PanicPayload where
  | strRef (s : String) : PanicPayload
  | string (s : String) : PanicPayload
  | other : PanicPayload
  deriving Repr, DecidableEq

/-- `panic_payload_to_string` from `lib.rs`: downcast to `&str` or `String`,
otherwise a fixed message. -/
def panic_payload_to_string : PanicPayload → String
  | .strRef s => s
  | .string s => s
  | .other => "unknown panic payload"

/-- Modelled from the spec: `apple_bom::Error`.  The wrapper only
distinguishes the missing-variable case (`Error::NoVar`) from every other
error, and otherwise uses the error's `to_string()` rendering, so the model
keeps exactly those two observations. -/
structure BomError where
  isNoVar : Bool
  message : String
  deriving Repr, DecidableEq

/-- The outcome of calling into the external `apple-bom` crate under
`catch_unwind`: a value, an `apple_bom::Error`, or a panic payload. -/
inductive RustOutcome (α : Type) where
  | ok (v : α) : RustOutcome α
  | err (e : BomError) : RustOutcome α
  | panicked (p : PanicPayload) : RustOutcome α
  deriving Repr

/-- `SafeBomCall<T>` from `lib.rs`. -/
inductive SafeBomCall (α : Type) where
  | value (v : α) : SafeBomCall α
  | missingVariable : SafeBomCall α
  | error (msg : String) : SafeBomCall α
  deriving Repr

/-- `safe_bom_call` from `lib.rs`: catch panics; map `Error::NoVar` to
`MissingVariable`, other errors to their string rendering, and panics to a
`"apple-bom parser panicked: ..."` message. -/
def safe_bom_call {α : Type} (call : RustOutcome α) : SafeBomCall α :=
  match call with
  | .ok v => .value v
  | .err e => if e.isNoVar then .missingVariable else .error e.message
  | .panicked p =>
      .error ("apple-bom parser panicked: " ++ panic_payload_to_string p)

/-! ### The apple-bom data model (structures crossed by the wrapper)

The payload structures below mirror the fields of the external crate's types
that `lib.rs` reads.  Byte-string fields that the wrapper renders through
`String::from_utf8_lossy` or `string_file_name`/`string_link_name` are
modelled directly as the resulting strings, since the wrapper observes
nothing else about them. -/

/-- Modelled from the spec: one `(a,b,c,d)` entry of a BomInfo block. -/
structure BomInfoEntry where
  a : Int
  b : Int
  c : Int
  d : Int
  deriving Repr, DecidableEq

/-- Modelled from the spec: the decoded BomInfo block
(`{version, number_of_paths, number_of_info_entries, entries}`). -/
structure BomBlockBomInfo where
  version : Int
  number_of_paths : Int
  number_of_info_entries : Int
  entries : List BomInfoEntry
  deriving Repr, DecidableEq

/-- Modelled from the spec: a decoded File block. -/
structure BomBlockFile where
  parent_path_id : Int
  name : String
  deriving Repr, DecidableEq

/-- Modelled from the spec: a decoded PathInfoIndex block. -/
structure BomBlockPathInfoIndex where
  path_id : Int
  path_record_index : Int
  deriving Repr, DecidableEq

/-- Modelled from the spec: a decoded PathRecord block (the fields
`path_record_fields` in `lib.rs` reads). -/
structure BomBlockPathRecord where
  path_type : Nat
  a : Int
  architecture : Int
  mode : Int
  user : Int
  group : Int
  mtime : Int
  size : Int
  b : Int
  checksum_or_type : Int
  link_name_length : Int
  link_name : Option String
  deriving Repr, DecidableEq

/-- Modelled from the spec: a decoded PathRecordPointer block. -/
structure BomBlockPathRecordPointer where
  block_path_record_index : Int
  deriving Repr, DecidableEq

/-- Modelled from the spec: one `(block_index, file_index)` entry of a
Paths block. -/
structure BomPathsEntry where
  block_index : Int
  file_index : Int
  deriving Repr, DecidableEq

/-- Modelled from the spec: a decoded Paths block. -/
structure BomBlockPaths where
  is_path_info : Bool
  count : Int
  next_paths_block_index : Int
  previous_paths_block_index : Int
  paths : List BomPathsEntry
  deriving Repr, DecidableEq

/-- Modelled from the spec: a decoded Tree block (`tree` is the
`from_utf8_lossy` rendering of its magic bytes). -/
structure BomBlockTree where
  tree : String
  version : Int
  block_paths_index : Int
  block_size : Int
  path_count : Int
  a : Int
  deriving Repr, DecidableEq

/-- Modelled from the spec: a decoded TreePointer block. -/
structure BomBlockTreePointer where
  block_tree_index : Int
  deriving Repr, DecidableEq

/-- Modelled from the spec: a decoded VIndex block. -/
structure BomBlockVIndex where
  a : Int
  tree_block_index : Int
  b : Int
  c : Int
  deriving Repr, DecidableEq

/-- Modelled from the spec: `apple_bom::format::BomBlock`, the closed tagged
union over the 11 block kinds (`Unknown` never comes out of the external
`try_parse`; the wrapper synthesises it from errors and panics). -/
inductive BomBlock where
  | empty : BomBlock
  | bomInfo (info : BomBlockBomInfo) : BomBlock
  | file (f : BomBlockFile) : BomBlock
  | pathInfoIndex (p : BomBlockPathInfoIndex) : BomBlock
  | pathRecord (r : BomBlockPathRecord) : BomBlock
  | pathRecordPointer (p : BomBlockPathRecordPointer) : BomBlock
  | paths (p : BomBlockPaths) : BomBlock
  | tree (t : BomBlockTree) : BomBlock
  | treePointer (p : BomBlockTreePointer) : BomBlock
  | vIndex (v : BomBlockVIndex) : BomBlock
  deriving Repr, DecidableEq

/-- Modelled from the spec: `apple_bom::BomPathType` with its raw-byte
encoding (1 file, 2 directory, 3 link, 4 device, anything else Other). -/
inductive BomPathType where
  | file : BomPathType
  | directory : BomPathType
  | link : BomPathType
  | dev : BomPathType
  | other (raw : Nat) : BomPathType
  deriving Repr, DecidableEq

/-- Modelled from the spec: the `Into<u8>` conversion of `BomPathType`. -/
def bomPathTypeToRaw : BomPathType → Nat
  | .file => 1
  | .directory => 2
  | .link => 3
  | .dev => 4
  | .other raw => raw

/-- `path_type_name` from `lib.rs`. -/
def path_type_name : BomPathType → String
  | .file => "file"
  | .directory => "directory"
  | .link => "link"
  | .dev => "device"
  | .other _ => "other"

/-- Modelled from the spec: the `BomPathType::from(u8)` conversion used by
`path_record_fields`. -/
def bomPathTypeFromRaw (raw : Nat) : BomPathType :=
  if raw = 1 then .file
  else if raw = 2 then .directory
  else if raw = 3 then .link
  else if raw = 4 then .dev
  else .other raw

/-- Modelled from the spec: `apple_bom::BomPath`, a resolved filesystem
entry.  The `DateTime` is modelled by the two projections the wrapper reads
(`timestamp()` and `to_rfc3339()`). -/
structure BomPath where
  path : String
  path_type : BomPathType
  file_mode : Int
  symbolic_mode : String
  user_id : Int
  group_id : Int
  mtime : Int
  mtime_iso8601 : String
  size : Int
  crc32 : Option Int
  link_name : Option String
  deriving Repr, DecidableEq

/-- Modelled from the spec: the fixed 5-field BOM header (the magic is
modelled by its `from_utf8_lossy` rendering, the only observation the
wrapper makes of it). -/
structure BomHeader where
  magic : String
  version : Int
  number_of_blocks : Int
  blocks_index_offset : Int
  blocks_index_length : Int
  vars_index_offset : Int
  vars_index_length : Int
  deriving Repr, DecidableEq

/-- Modelled from the spec: one `(file_offset, length)` entry of the Blocks
Index. -/
structure BomBlocksEntry where
  file_offset : Int
  length : Int
  deriving Repr, DecidableEq

/-- Modelled from the spec: the Blocks Index (`count` plus the ordered entry
list; positions in `blocks` are the block indices). -/
structure BomBlocksIndex where
  count : Int
  blocks : List BomBlocksEntry
  deriving Repr, DecidableEq

/-- Modelled from the spec: one name → block-index binding of the Variables
Index. -/
structure BomVar where
  name : String
  name_length : Nat
  block_index : Int
  deriving Repr, DecidableEq

/-- Modelled from the spec: the Variables Index. -/
structure BomVarsIndex where
  vars : List BomVar
  deriving Repr, DecidableEq

/-- Modelled from the spec: a successfully parsed BOM
(`apple_bom::format::ParsedBom`) together with the observable behaviour of
every call the wrapper makes into the external crate.  `block_data i` is the
raw byte range of block `i` (spec §4.1: fails with an out-of-bounds error
when the range exceeds the buffer); `try_parse i` is the outcome of
`BomBlock::try_parse(bom, i)` under `catch_unwind`; `bom_info`, `paths`,
`hl_index`, `size64` and `vindex` are the outcomes of the five section
resolvers under `catch_unwind` (an `Error` with `isNoVar` set models
`Error::NoVar`, the named variable being absent from the Variables Index). -/
structure ParsedBom where
  header : BomHeader
  blocks : BomBlocksIndex
  vars : BomVarsIndex
  block_data : Nat → Except BomError (List Nat)
  try_parse : Nat → RustOutcome BomBlock
  bom_info : RustOutcome BomBlockBomInfo
  paths : RustOutcome (List BomPath)
  hl_index : RustOutcome (List BomPath)
  size64 : RustOutcome (List BomPath)
  vindex : RustOutcome (List BomPath)

/-- Modelled from the spec (§8): after a successful parse every block
entry's `(file_offset, length)` range lies within the byte buffer, so
fetching the raw data of an in-range block index succeeds. -/
def ParsedBom.blockDataOk (bom : ParsedBom) : Prop :=
  ∀ i, i < bom.blocks.blocks.length → ∃ raw, bom.block_data i = Except.ok raw

/-- A lowercase hex digit. -/
def hexDigit (n : Nat) : Char :=
  if n < 10 then Char.ofNat (48 + n) else Char.ofNat (87 + n)

/-- `hex::encode` of one byte: two lowercase hex digits. -/
def hexByte (b : Nat) : String :=
  String.mk [hexDigit (b / 16 % 16), hexDigit (b % 16)]

/-- `hex::encode` from the `hex` crate: lowercase hex of a byte sequence. -/
def hexEncode (bytes : List Nat) : String :=
  String.join (bytes.map hexByte)

/-! ### The wrapper (`src/lib.rs`), embedded -/

/-- The Python exceptions the wrapper can raise: `BomParseError` (via
`bom_error_to_py`), `PyTypeError` (out-of-range serialization index) and
`PyOSError` (file read failure in `parse_bom_file`). -/
inductive PyErr where
  | bomParseError (msg : String) : PyErr
  | typeError (msg : String) : PyErr
  | osError (msg : String) : PyErr
  deriving Repr, DecidableEq

/-- `bom_error_to_py` from `lib.rs`. -/
def bom_error_to_py (e : BomError) : PyErr :=
  PyErr.bomParseError e.message

/-- PyO3's conversion of a Rust `Option<String>` into a Python value. -/
def optStr : Option String → PyValue
  | Option.none => PyValue.none
  | some s => PyValue.str s

/-- PyO3's conversion of a Rust `Option` of an integer into a Python value. -/
def optInt : Option Int → PyValue
  | Option.none => PyValue.none
  | some n => PyValue.int n

/-- `path_to_dict` from `lib.rs`: serialize one `BomPath`. -/
def path_to_dict (p : BomPath) : Dict :=
  let item : Dict := []
  let item := dictSet item "path" (.str p.path)
  let item := dictSet item "path_type" (.str (path_type_name p.path_type))
  let item := dictSet item "path_type_raw" (.int (bomPathTypeToRaw p.path_type))
  let item := dictSet item "file_mode" (.int p.file_mode)
  let item := dictSet item "symbolic_mode" (.str p.symbolic_mode)
  let item := dictSet item "user_id" (.int p.user_id)
  let item := dictSet item "group_id" (.int p.group_id)
  let item := dictSet item "mtime" (.int p.mtime)
  let item := dictSet item "mtime_iso8601" (.str p.mtime_iso8601)
  let item := dictSet item "size" (.int p.size)
  let item := dictSet item "crc32" (optInt p.crc32)
  let item := dictSet item "link_name" (optStr p.link_name)
  item

/-- `path_record_fields` from `lib.rs`: add the PathRecord fields to an
existing dict. -/
def path_record_fields (item : Dict) (r : BomBlockPathRecord) : Dict :=
  let pt := bomPathTypeFromRaw r.path_type
  let item := dictSet item "path_type" (.str (path_type_name pt))
  let item := dictSet item "path_type_raw" (.int r.path_type)
  let item := dictSet item "a" (.int r.a)
  let item := dictSet item "architecture" (.int r.architecture)
  let item := dictSet item "mode" (.int r.mode)
  let item := dictSet item "user" (.int r.user)
  let item := dictSet item "group" (.int r.group)
  let item := dictSet item "mtime" (.int r.mtime)
  let item := dictSet item "size" (.int r.size)
  let item := dictSet item "b" (.int r.b)
  let item := dictSet item "checksum_or_type" (.int r.checksum_or_type)
  let item := dictSet item "link_name_length" (.int r.link_name_length)
  let item := dictSet item "link_name" (optStr r.link_name)
  item

/-- `serialize_path_list` from `lib.rs`. -/
def serialize_path_list (paths : List BomPath) : List PyValue :=
  paths.map (fun p => PyValue.dict (path_to_dict p))

/-- One `(a,b,c,d)` BomInfo entry serialized as in `lib.rs`. -/
def bom_info_entry_dict (e : BomInfoEntry) : Dict :=
  dictSet (dictSet (dictSet (dictSet [] "a" (.int e.a)) "b" (.int e.b))
    "c" (.int e.c)) "d" (.int e.d)

/-- The kind-specific fields the block dispatcher adds to a block entry when
`BomBlock::try_parse` succeeds (the `Ok(Ok(..))` arms of the `match` in
`append_block_entry`). -/
def decoded_block_fields (d : Dict) : BomBlock → Dict
  | .empty => dictSet d "kind" (.str "Empty")
  | .bomInfo info =>
      let d := dictSet d "kind" (.str "BomInfo")
      let d := dictSet d "version" (.int info.version)
      let d := dictSet d "number_of_paths" (.int info.number_of_paths)
      let d := dictSet d "number_of_info_entries" (.int info.number_of_info_entries)
      dictSet d "entries"
        (.list (info.entries.map (fun e => PyValue.dict (bom_info_entry_dict e))))
  | .file f =>
      let d := dictSet d "kind" (.str "File")
      let d := dictSet d "parent_path_id" (.int f.parent_path_id)
      dictSet d "name" (.str f.name)
  | .pathInfoIndex p =>
      let d := dictSet d "kind" (.str "PathInfoIndex")
      let d := dictSet d "path_id" (.int p.path_id)
      dictSet d "path_record_index" (.int p.path_record_index)
  | .pathRecord r =>
      let d := dictSet d "kind" (.str "PathRecord")
      path_record_fields d r
  | .pathRecordPointer p =>
      let d := dictSet d "kind" (.str "PathRecordPointer")
      dictSet d "block_path_record_index" (.int p.block_path_record_index)
  | .paths p =>
      let d := dictSet d "kind" (.str "Paths")
      let d := dictSet d "is_path_info" (.bool p.is_path_info)
      let d := dictSet d "count" (.int p.count)
      let d := dictSet d "next_paths_block_index" (.int p.next_paths_block_index)
      let d := dictSet d "previous_paths_block_index" (.int p.previous_paths_block_index)
      dictSet d "paths"
        (.list (p.paths.map (fun e =>
          PyValue.dict (dictSet (dictSet [] "block_index" (.int e.block_index))
            "file_index" (.int e.file_index)))))
  | .tree t =>
      let d := dictSet d "kind" (.str "Tree")
      let d := dictSet d "tree" (.str t.tree)
      let d := dictSet d "version" (.int t.version)
      let d := dictSet d "block_paths_index" (.int t.block_paths_index)
      let d := dictSet d "block_size" (.int t.block_size)
      let d := dictSet d "path_count" (.int t.path_count)
      dictSet d "a" (.int t.a)
  | .treePointer p =>
      let d := dictSet d "kind" (.str "TreePointer")
      dictSet d "block_tree_index" (.int p.block_tree_index)
  | .vIndex v =>
      let d := dictSet d "kind" (.str "VIndex")
      let d := dictSet d "a" (.int v.a)
      let d := dictSet d "tree_block_index" (.int v.tree_block_index)
      let d := dictSet d "b" (.int v.b)
      dictSet d "c" (.int v.c)

/-- The block entry dict built by `append_block_entry` once the raw data of
the block is in hand: index/offset/length, optional `raw_hex`, then the
Empty and too-small early returns, then the `catch_unwind` dispatch on
`BomBlock::try_parse`. -/
def block_entry_dict (entry : BomBlocksEntry) (index : Nat)
    (include_raw_block_bytes : Bool) (raw_data : List Nat)
    (tp : RustOutcome BomBlock) : Dict :=
  let d : Dict := []
  let d := dictSet d "index" (.int index)
  let d := dictSet d "file_offset" (.int entry.file_offset)
  let d := dictSet d "length" (.int entry.length)
  let d := if include_raw_block_bytes then dictSet d "raw_hex" (.str (hexEncode raw_data)) else d
  if raw_data.isEmpty then
    dictSet d "kind" (.str "Empty")
  else if raw_data.length < 4 then
    dictSet (dictSet d "kind" (.str "Unknown"))
      "parse_error" (.str "block too small for type detection")
  else
    match tp with
    | .panicked payload =>
        dictSet (dictSet d "kind" (.str "Unknown")) "parse_error"
          (.str ("block parser panicked: " ++ panic_payload_to_string payload))
    | .err e =>
        dictSet (dictSet d "kind" (.str "Unknown")) "parse_error" (.str e.message)
    | .ok block => decoded_block_fields d block

/-- `append_block_entry` from `lib.rs`: look up the blocks-index entry
(`PyTypeError` when out of range), fetch the raw block data (`?` on
`block_data`: a `BomParseError` here propagates out of the whole document
decode), build the entry dict and append it to the list. -/
def append_block_entry (bom : ParsedBom) (index : Nat)
    (include_raw_block_bytes : Bool) (blocks_list : List PyValue) :
    Except PyErr (List PyValue) :=
  match bom.blocks.blocks.get? index with
  | Option.none => Except.error (PyErr.typeError
      ("block index " ++ toString index ++ " out of range while serializing"))
  | some entry =>
    match bom.block_data index with
    | .error e => Except.error (bom_error_to_py e)
    | .ok raw_data =>
        Except.ok (blocks_list ++
          [PyValue.dict (block_entry_dict entry index include_raw_block_bytes raw_data
            (bom.try_parse index))])

/-- The `for index in 0..bom.blocks.blocks.len()` loop of
`parse_bom_document`, over an explicit index list. -/
def run_block_dump (bom : ParsedBom) (include_raw_block_bytes : Bool) :
    List Nat → List PyValue → Except PyErr (List PyValue)
  | [], acc => Except.ok acc
  | i :: rest, acc =>
      match append_block_entry bom i include_raw_block_bytes acc with
      | .error e => Except.error e
      | .ok acc' => run_block_dump bom include_raw_block_bytes rest acc'

/-- `parse_optional_path_section` from `lib.rs`: set the section key from the
`safe_bom_call` classification, recording a parse error for failures other
than a missing variable.  Returns the updated `(doc, parse_errors)` pair. -/
def parse_optional_path_section (doc : Dict) (parse_errors : Dict)
    (name : String) (p : RustOutcome (List BomPath)) : Dict × Dict :=
  match safe_bom_call p with
  | .value paths => (dictSet doc name (.list (serialize_path_list paths)), parse_errors)
  | .missingVariable => (dictSet doc name PyValue.none, parse_errors)
  | .error err => (dictSet doc name PyValue.none, dictSet parse_errors name (.str err))

/-- The `bom_info` arm of `parse_bom_document`: like
`parse_optional_path_section` but serializing a `BomBlockBomInfo`. -/
def bom_info_section (doc : Dict) (parse_errors : Dict)
    (o : RustOutcome BomBlockBomInfo) : Dict × Dict :=
  match safe_bom_call o with
  | .value info =>
      let info_dict : Dict := []
      let info_dict := dictSet info_dict "version" (.int info.version)
      let info_dict := dictSet info_dict "number_of_paths" (.int info.number_of_paths)
      let info_dict := dictSet info_dict "number_of_info_entries" (.int info.number_of_info_entries)
      let info_dict := dictSet info_dict "entries"
        (.list (info.entries.map (fun e => PyValue.dict (bom_info_entry_dict e))))
      (dictSet doc "bom_info" (.dict info_dict), parse_errors)
  | .missingVariable => (dictSet doc "bom_info" PyValue.none, parse_errors)
  | .error err =>
      (dictSet doc "bom_info" PyValue.none, dictSet parse_errors "bom_info" (.str err))

/-- The header dict built by `parse_bom_document`. -/
def header_dict (h : BomHeader) : Dict :=
  let d : Dict := []
  let d := dictSet d "magic" (.str h.magic)
  let d := dictSet d "version" (.int h.version)
  let d := dictSet d "number_of_blocks" (.int h.number_of_blocks)
  let d := dictSet d "blocks_index_offset" (.int h.blocks_index_offset)
  let d := dictSet d "blocks_index_length" (.int h.blocks_index_length)
  let d := dictSet d "vars_index_offset" (.int h.vars_index_offset)
  let d := dictSet d "vars_index_length" (.int h.vars_index_length)
  d

/-- The blocks-index dict built by `parse_bom_document` (`count` plus the
enumerated `{index, file_offset, length}` entries). -/
def blocks_index_dict (bi : BomBlocksIndex) : Dict :=
  let entries := bi.blocks.enum.map (fun p =>
    PyValue.dict (dictSet (dictSet (dictSet [] "index" (.int p.1))
      "file_offset" (.int p.2.file_offset)) "length" (.int p.2.length)))
  dictSet (dictSet [] "count" (.int bi.count)) "entries" (.list entries)

/-- One variables-list item built by `parse_bom_document`. -/
def var_dict (v : BomVar) : Dict :=
  dictSet (dictSet (dictSet [] "name" (.str v.name))
    "name_length" (.int v.name_length)) "block_index" (.int v.block_index)

/-- `parse_bom_document` from `lib.rs`.  `parse` models
`ParsedBom::parse(data)` (the external crate's fallible parse of the header
and the two indices); everything after it is the wrapper's own assembly. -/
def parse_bom_document (parse : List Nat → Except BomError ParsedBom)
    (data : List Nat) (source_path : Option String)
    (include_blocks : Bool) (include_raw_block_bytes : Bool) :
    Except PyErr Dict :=
  match parse data with
  | .error e => Except.error (bom_error_to_py e)
  | .ok bom =>
    let doc : Dict := []
    let parse_errors : Dict := []
    let doc := dictSet doc "format" (.str "apple-bom")
    let doc := dictSet doc "byte_length" (.int data.length)
    let doc := match source_path with
      | some path => dictSet doc "source_path" (.str path)
      | Option.none => doc
    let doc := dictSet doc "header" (.dict (header_dict bom.header))
    let doc := dictSet doc "blocks_index" (.dict (blocks_index_dict bom.blocks))
    let doc := dictSet doc "variables"
      (.list (bom.vars.vars.map (fun v => PyValue.dict (var_dict v))))
    let dp := bom_info_section doc parse_errors bom.bom_info
    let dp := parse_optional_path_section dp.1 dp.2 "paths" bom.paths
    let dp := parse_optional_path_section dp.1 dp.2 "hl_index" bom.hl_index
    let dp := parse_optional_path_section dp.1 dp.2 "size64" bom.size64
    let dp := parse_optional_path_section dp.1 dp.2 "vindex" bom.vindex
    let doc := dp.1
    let parse_errors := dp.2
    let blocksRes : Except PyErr Dict :=
      if include_blocks then
        match run_block_dump bom include_raw_block_bytes
            (List.range bom.blocks.blocks.length) [] with
        | .error e => Except.error e
        | .ok blocks => Except.ok (dictSet doc "blocks" (.list blocks))
      else
        Except.ok (dictSet doc "blocks" PyValue.none)
    match blocksRes with
    | .error e => Except.error e
    | .ok doc =>
        Except.ok (if parse_errors.length = 0 then
            dictSet doc "parse_errors" PyValue.none
          else dictSet doc "parse_errors" (.dict parse_errors))

/-- The `include_blocks` default of the two `#[pyfunction]` signatures
(`include_blocks = true`). -/
def include_blocks_default : Bool := true

/-- The `include_raw_block_bytes` default of the two `#[pyfunction]`
signatures (`include_raw_block_bytes = false`). -/
def include_raw_block_bytes_default : Bool := false

/-- `parse_bom_bytes` from `lib.rs`: decode a byte buffer, with no
`source_path`. -/
def parse_bom_bytes (parse : List Nat → Except BomError ParsedBom)
    (data : List Nat) (include_blocks : Bool) (include_raw_block_bytes : Bool) :
    Except PyErr Dict :=
  parse_bom_document parse data Option.none include_blocks include_raw_block_bytes

/-- `parse_bom_file` from `lib.rs`: read the file (any read failure becomes
a `PyOSError`), then decode with `source_path` set to the path argument.
`readFile` models `std::fs::read`. -/
def parse_bom_file (parse : List Nat → Except BomError ParsedBom)
    (readFile : String → Except String (List Nat)) (path : String)
    (include_blocks : Bool) (include_raw_block_bytes : Bool) :
    Except PyErr Dict :=
  match readFile path with
  | .error e => Except.error (PyErr.osError ("failed reading " ++ path ++ ": " ++ e))
  | .ok data =>
      parse_bom_document parse data (some path) include_blocks include_raw_block_bytes

/-! ### Characterization lemmas -/

/-- The soft-failure message of an underlying section call, if any:
`safe_bom_call` maps it to `SafeBomCall::Error` exactly for non-`NoVar`
errors and panics. -/
def sectionErrorMsg {α : Type} (o : RustOutcome α) : Option String :=
  match safe_bom_call o with
  | .error m => some m
  | _ => Option.none

/-- Whether an underlying section call is a soft failure (a non-`NoVar`
error or a panic). -/
def isSectionError {α : Type} (o : RustOutcome α) : Bool :=
  (sectionErrorMsg o).isSome

/-- The Python value a path section resolves to. -/
def sectionPyValue (o : RustOutcome (List BomPath)) : PyValue :=
  match safe_bom_call o with
  | .value paths => .list (serialize_path_list paths)
  | .missingVariable => PyValue.none
  | .error _ => PyValue.none

/-- The Python value the `bom_info` section resolves to. -/
def bomInfoPyValue (o : RustOutcome BomBlockBomInfo) : PyValue :=
  match safe_bom_call o with
  | .value info =>
      .dict (dictSet (dictSet (dictSet (dictSet [] "version" (.int info.version))
        "number_of_paths" (.int info.number_of_paths))
        "number_of_info_entries" (.int info.number_of_info_entries))
        "entries" (.list (info.entries.map (fun e => PyValue.dict (bom_info_entry_dict e)))))
  | .missingVariable => PyValue.none
  | .error _ => PyValue.none

/-- The parse-errors dict accumulated over the five named sections. -/
def pe_after (bom : ParsedBom) : Dict :=
  let pe : Dict := []
  let pe := match sectionErrorMsg bom.bom_info with
    | some m => dictSet pe "bom_info" (.str m)
    | Option.none => pe
  let pe := match sectionErrorMsg bom.paths with
    | some m => dictSet pe "paths" (.str m)
    | Option.none => pe
  let pe := match sectionErrorMsg bom.hl_index with
    | some m => dictSet pe "hl_index" (.str m)
    | Option.none => pe
  let pe := match sectionErrorMsg bom.size64 with
    | some m => dictSet pe "size64" (.str m)
    | Option.none => pe
  match sectionErrorMsg bom.vindex with
    | some m => dictSet pe "vindex" (.str m)
    | Option.none => pe

/-- The block entry appended for block `i` when its raw data is available
(the normal case under `ParsedBom.blockDataOk`). -/
def mk_entry (bom : ParsedBom) (include_raw_block_bytes : Bool) (i : Nat) : PyValue :=
  match bom.blocks.blocks.get? i, bom.block_data i with
  | some e, .ok raw =>
      .dict (block_entry_dict e i include_raw_block_bytes raw (bom.try_parse i))
  | _, _ => PyValue.none

/-- The full block dump list produced by the `include_blocks` loop. -/
def dump_list (bom : ParsedBom) (include_raw_block_bytes : Bool) : List PyValue :=
  (List.range bom.blocks.blocks.length).map (mk_entry bom include_raw_block_bytes)

/-- The assembled document: the closed form of a successful
`parse_bom_document` run, with the blocks value abstracted. -/
def assembled_doc (bom : ParsedBom) (dataLen : Nat) (source_path : Option String)
    (blocksVal : PyValue) : Dict :=
  let doc : Dict := []
  let doc := dictSet doc "format" (.str "apple-bom")
  let doc := dictSet doc "byte_length" (.int dataLen)
  let doc := match source_path with
    | some path => dictSet doc "source_path" (.str path)
    | Option.none => doc
  let doc := dictSet doc "header" (.dict (header_dict bom.header))
  let doc := dictSet doc "blocks_index" (.dict (blocks_index_dict bom.blocks))
  let doc := dictSet doc "variables"
    (.list (bom.vars.vars.map (fun v => PyValue.dict (var_dict v))))
  let doc := dictSet doc "bom_info" (bomInfoPyValue bom.bom_info)
  let doc := dictSet doc "paths" (sectionPyValue bom.paths)
  let doc := dictSet doc "hl_index" (sectionPyValue bom.hl_index)
  let doc := dictSet doc "size64" (sectionPyValue bom.size64)
  let doc := dictSet doc "vindex" (sectionPyValue bom.vindex)
  let doc := dictSet doc "blocks" blocksVal
  if (pe_after bom).length = 0 then dictSet doc "parse_errors" PyValue.none
  else dictSet doc "parse_errors" (.dict (pe_after bom))

/-- The five named top-level sections. -/
inductive SectionName where
  | bom_info : SectionName
  | paths : SectionName
  | hl_index : SectionName
  | size64 : SectionName
  | vindex : SectionName
  deriving Repr, DecidableEq

/-- The document key of a named section. -/
def SectionName.key : SectionName → String
  | .bom_info => "bom_info"
  | .paths => "paths"
  | .hl_index => "hl_index"
  | .size64 => "size64"
  | .vindex => "vindex"

/-- The soft-failure message (if any) of a named section's underlying call. -/
def sectionErrorOf (bom : ParsedBom) : SectionName → Option String
  | .bom_info => sectionErrorMsg bom.bom_info
  | .paths => sectionErrorMsg bom.paths
  | .hl_index => sectionErrorMsg bom.hl_index
  | .size64 => sectionErrorMsg bom.size64
  | .vindex => sectionErrorMsg bom.vindex

/-- Whether an underlying call reported the missing-variable error
(`apple_bom::Error::NoVar`). -/
def outcomeMissingVar {α : Type} : RustOutcome α → Bool
  | .err e => e.isNoVar
  | _ => false

/-- Whether a named section's variable was reported missing. -/
def sectionMissingOf (bom : ParsedBom) : SectionName → Bool
  | .bom_info => outcomeMissingVar bom.bom_info
  | .paths => outcomeMissingVar bom.paths
  | .hl_index => outcomeMissingVar bom.hl_index
  | .size64 => outcomeMissingVar bom.size64
  | .vindex => outcomeMissingVar bom.vindex

/-- The document value a named section resolves to. -/
def sectionDocValue (bom : ParsedBom) : SectionName → PyValue
  | .bom_info => bomInfoPyValue bom.bom_info
  | .paths => sectionPyValue bom.paths
  | .hl_index => sectionPyValue bom.hl_index
  | .size64 => sectionPyValue bom.size64
  | .vindex => sectionPyValue bom.vindex

/-- A benign sample environment: two blocks of raw lengths 2 and 0, all five
section variables missing. -/
def sampleBom : ParsedBom where
  header :=
    { magic := "BOMStore", version := 1, number_of_blocks := 2
      blocks_index_offset := 512, blocks_index_length := 20
      vars_index_offset := 532, vars_index_length := 4 }
  blocks := { count := 2, blocks := [⟨512, 2⟩, ⟨514, 0⟩] }
  vars := { vars := [] }
  block_data := fun i =>
    if i = 0 then .ok [171, 205]
    else if i = 1 then .ok []
    else .error ⟨false, "bad index"⟩
  try_parse := fun _ => .err ⟨false, "unreachable"⟩
  bom_info := .err ⟨true, "no var BomInfo"⟩
  paths := .err ⟨true, "no var Paths"⟩
  hl_index := .err ⟨true, "no var HLIndex"⟩
  size64 := .err ⟨true, "no var Size64"⟩
  vindex := .err ⟨true, "no var VIndex"⟩

/-- A failing sample environment: one 4-byte block whose parse errors, and
all five sections soft-failing (errors or panics). -/
def failBom : ParsedBom where
  header :=
    { magic := "BOMStore", version := 1, number_of_blocks := 1
      blocks_index_offset := 512, blocks_index_length := 12
      vars_index_offset := 524, vars_index_length := 4 }
  blocks := { count := 1, blocks := [⟨512, 4⟩] }
  vars := { vars := [⟨"Paths", 5, 0⟩] }
  block_data := fun i =>
    if i = 0 then .ok [1, 2, 3, 4]
    else .error ⟨false, "bad index"⟩
  try_parse := fun i =>
    if i = 0 then .err ⟨false, "bad tree"⟩ else .ok .empty
  bom_info := .panicked (.strRef "boom")
  paths := .err ⟨false, "kind mismatch"⟩
  hl_index := .panicked .other
  size64 := .err ⟨false, "oops"⟩
  vindex := .err ⟨false, "bad"⟩

theorem parse_optional_path_section_fst (doc parse_errors : Dict) (name : String)
    (o : RustOutcome (List BomPath)) :
    (parse_optional_path_section doc parse_errors name o).1 =
      dictSet doc name (sectionPyValue o) := by
  unfold parse_optional_path_section sectionPyValue
  cases safe_bom_call o <;> rfl

theorem parse_optional_path_section_snd (doc parse_errors : Dict) (name : String)
    (o : RustOutcome (List BomPath)) :
    (parse_optional_path_section doc parse_errors name o).2 =
      match sectionErrorMsg o with
      | some m => dictSet parse_errors name (.str m)
      | Option.none => parse_errors := by
  unfold parse_optional_path_section sectionErrorMsg
  cases safe_bom_call o <;> rfl

theorem bom_info_section_fst (doc parse_errors : Dict)
    (o : RustOutcome BomBlockBomInfo) :
    (bom_info_section doc parse_errors o).1 =
      dictSet doc "bom_info" (bomInfoPyValue o) := by
  unfold bom_info_section bomInfoPyValue
  cases safe_bom_call o <;> rfl

theorem bom_info_section_snd (doc parse_errors : Dict)
    (o : RustOutcome BomBlockBomInfo) :
    (bom_info_section doc parse_errors o).2 =
      match sectionErrorMsg o with
      | some m => dictSet parse_errors "bom_info" (.str m)
      | Option.none => parse_errors := by
  unfold bom_info_section sectionErrorMsg
  cases safe_bom_call o <;> rfl

theorem append_block_entry_ok (bom : ParsedBom) (i : Nat) (irb : Bool)
    (acc : List PyValue) (e : BomBlocksEntry) (raw : List Nat)
    (hget : bom.blocks.blocks.get? i = some e)
    (hraw : bom.block_data i = Except.ok raw) :
    append_block_entry bom i irb acc =
      Except.ok (acc ++ [mk_entry bom irb i]) := by
  unfold append_block_entry mk_entry
  rw [hget, hraw]

theorem run_block_dump_ok (bom : ParsedBom) (irb : Bool) (idxs : List Nat)
    (acc : List PyValue)
    (h : ∀ i ∈ idxs, i < bom.blocks.blocks.length)
    (hwf : bom.blockDataOk) :
    run_block_dump bom irb idxs acc =
      Except.ok (acc ++ idxs.map (mk_entry bom irb)) := by
  induction idxs generalizing acc with
  | nil => simp [run_block_dump]
  | cons i rest ih =>
    have hi : i < bom.blocks.blocks.length := h i (by simp)
    obtain ⟨raw, hraw⟩ := hwf i hi
    obtain ⟨e, hget⟩ : ∃ e, bom.blocks.blocks.get? i = some e :=
      ⟨bom.blocks.blocks.get ⟨i, hi⟩, List.get?_eq_get hi⟩
    unfold run_block_dump
    rw [append_block_entry_ok bom i irb acc e raw hget hraw]
    show run_block_dump bom irb rest (acc ++ [mk_entry bom irb i]) =
      Except.ok (acc ++ List.map (mk_entry bom irb) (i :: rest))
    rw [ih (acc ++ [mk_entry bom irb i]) (fun j hj => h j (List.mem_cons_of_mem i hj))]
    simp

theorem parse_bom_document_ok_with_blocks
    (parse : List Nat → Except BomError ParsedBom) (data : List Nat)
    (bom : ParsedBom) (sp : Option String) (irb : Bool)
    (hparse : parse data = Except.ok bom) (hwf : bom.blockDataOk) :
    parse_bom_document parse data sp true irb =
      Except.ok (assembled_doc bom data.length sp (.list (dump_list bom irb))) := by
  unfold parse_bom_document
  rw [hparse]
  simp only [if_true]
  rw [run_block_dump_ok bom irb _ [] (fun i hi => List.mem_range.mp hi) hwf]
  simp only [List.nil_append]
  unfold assembled_doc dump_list
  rw [bom_info_section_fst, bom_info_section_snd,
    parse_optional_path_section_fst, parse_optional_path_section_snd,
    parse_optional_path_section_fst, parse_optional_path_section_snd,
    parse_optional_path_section_fst, parse_optional_path_section_snd,
    parse_optional_path_section_fst, parse_optional_path_section_snd]
  unfold pe_after
  cases sectionErrorMsg bom.bom_info <;>
    cases sectionErrorMsg bom.paths <;>
    cases sectionErrorMsg bom.hl_index <;>
    cases sectionErrorMsg bom.size64 <;>
    cases sectionErrorMsg bom.vindex <;> rfl

theorem parse_bom_document_ok_no_blocks
    (parse : List Nat → Except BomError ParsedBom) (data : List Nat)
    (bom : ParsedBom) (sp : Option String) (irb : Bool)
    (hparse : parse data = Except.ok bom) :
    parse_bom_document parse data sp false irb =
      Except.ok (assembled_doc bom data.length sp PyValue.none) := by
  unfold parse_bom_document
  rw [hparse]
  simp only [Bool.false_eq_true, if_false]
  unfold assembled_doc
  rw [bom_info_section_fst, bom_info_section_snd,
    parse_optional_path_section_fst, parse_optional_path_section_snd,
    parse_optional_path_section_fst, parse_optional_path_section_snd,
    parse_optional_path_section_fst, parse_optional_path_section_snd,
    parse_optional_path_section_fst, parse_optional_path_section_snd]
  unfold pe_after
  cases sectionErrorMsg bom.bom_info <;>
    cases sectionErrorMsg bom.paths <;>
    cases sectionErrorMsg bom.hl_index <;>
    cases sectionErrorMsg bom.size64 <;>
    cases sectionErrorMsg bom.vindex <;> rfl

theorem assembled_doc_get_bom_info (bom : ParsedBom) (n : Nat) (sp : Option String)
    (bv : PyValue) :
    dictGet (assembled_doc bom n sp bv) "bom_info" = some (bomInfoPyValue bom.bom_info) := by
  unfold assembled_doc
  by_cases hpe : (pe_after bom).length = 0
  · rw [if_pos hpe]; cases sp <;> simp [dictSet, dictGet]
  · rw [if_neg hpe]; cases sp <;> simp [dictSet, dictGet]

theorem assembled_doc_get_paths (bom : ParsedBom) (n : Nat) (sp : Option String)
    (bv : PyValue) :
    dictGet (assembled_doc bom n sp bv) "paths" = some (sectionPyValue bom.paths) := by
  unfold assembled_doc
  by_cases hpe : (pe_after bom).length = 0
  · rw [if_pos hpe]; cases sp <;> simp [dictSet, dictGet]
  · rw [if_neg hpe]; cases sp <;> simp [dictSet, dictGet]

theorem assembled_doc_get_hl_index (bom : ParsedBom) (n : Nat) (sp : Option String)
    (bv : PyValue) :
    dictGet (assembled_doc bom n sp bv) "hl_index" = some (sectionPyValue bom.hl_index) := by
  unfold assembled_doc
  by_cases hpe : (pe_after bom).length = 0
  · rw [if_pos hpe]; cases sp <;> simp [dictSet, dictGet]
  · rw [if_neg hpe]; cases sp <;> simp [dictSet, dictGet]

theorem assembled_doc_get_size64 (bom : ParsedBom) (n : Nat) (sp : Option String)
    (bv : PyValue) :
    dictGet (assembled_doc bom n sp bv) "size64" = some (sectionPyValue bom.size64) := by
  unfold assembled_doc
  by_cases hpe : (pe_after bom).length = 0
  · rw [if_pos hpe]; cases sp <;> simp [dictSet, dictGet]
  · rw [if_neg hpe]; cases sp <;> simp [dictSet, dictGet]

theorem assembled_doc_get_vindex (bom : ParsedBom) (n : Nat) (sp : Option String)
    (bv : PyValue) :
    dictGet (assembled_doc bom n sp bv) "vindex" = some (sectionPyValue bom.vindex) := by
  unfold assembled_doc
  by_cases hpe : (pe_after bom).length = 0
  · rw [if_pos hpe]; cases sp <;> simp [dictSet, dictGet]
  · rw [if_neg hpe]; cases sp <;> simp [dictSet, dictGet]

theorem assembled_doc_get_blocks (bom : ParsedBom) (n : Nat) (sp : Option String)
    (bv : PyValue) :
    dictGet (assembled_doc bom n sp bv) "blocks" = some bv := by
  unfold assembled_doc
  by_cases hpe : (pe_after bom).length = 0
  · rw [if_pos hpe]; cases sp <;> simp [dictSet, dictGet]
  · rw [if_neg hpe]; cases sp <;> simp [dictSet, dictGet]

theorem assembled_doc_get_parse_errors (bom : ParsedBom) (n : Nat) (sp : Option String)
    (bv : PyValue) :
    dictGet (assembled_doc bom n sp bv) "parse_errors" =
      some (if (pe_after bom).length = 0 then PyValue.none
        else PyValue.dict (pe_after bom)) := by
  unfold assembled_doc
  by_cases hpe : (pe_after bom).length = 0
  · rw [if_pos hpe, if_pos hpe]; simp
  · rw [if_neg hpe, if_neg hpe]; simp

theorem assembled_doc_get_source_path (bom : ParsedBom) (n : Nat) (sp : Option String)
    (bv : PyValue) :
    dictGet (assembled_doc bom n sp bv) "source_path" = sp.map PyValue.str := by
  unfold assembled_doc
  by_cases hpe : (pe_after bom).length = 0
  · rw [if_pos hpe]; cases sp <;> simp [dictSet, dictGet]
  · rw [if_neg hpe]; cases sp <;> simp [dictSet, dictGet]

theorem parse_bom_document_parse_error (parse : List Nat → Except BomError ParsedBom)
    (data : List Nat) (sp : Option String) (ib irb : Bool) (e : BomError)
    (hparse : parse data = Except.error e) :
    parse_bom_document parse data sp ib irb =
      Except.error (PyErr.bomParseError e.message) := by
  unfold parse_bom_document
  rw [hparse]
  rfl

theorem parse_bom_document_run_ok (parse : List Nat → Except BomError ParsedBom)
    (data : List Nat) (bom : ParsedBom) (sp : Option String) (irb : Bool)
    (blocks : List PyValue)
    (hparse : parse data = Except.ok bom)
    (hrun : run_block_dump bom irb (List.range bom.blocks.blocks.length) [] =
      Except.ok blocks) :
    parse_bom_document parse data sp true irb =
      Except.ok (assembled_doc bom data.length sp (.list blocks)) := by
  unfold parse_bom_document
  rw [hparse]
  simp only [if_true]
  rw [hrun]
  unfold assembled_doc
  rw [bom_info_section_fst, bom_info_section_snd,
    parse_optional_path_section_fst, parse_optional_path_section_snd,
    parse_optional_path_section_fst, parse_optional_path_section_snd,
    parse_optional_path_section_fst, parse_optional_path_section_snd,
    parse_optional_path_section_fst, parse_optional_path_section_snd]
  unfold pe_after
  cases sectionErrorMsg bom.bom_info <;>
    cases sectionErrorMsg bom.paths <;>
    cases sectionErrorMsg bom.hl_index <;>
    cases sectionErrorMsg bom.size64 <;>
    cases sectionErrorMsg bom.vindex <;> rfl

theorem parse_bom_document_run_error (parse : List Nat → Except BomError ParsedBom)
    (data : List Nat) (bom : ParsedBom) (sp : Option String) (irb : Bool) (e : PyErr)
    (hparse : parse data = Except.ok bom)
    (hrun : run_block_dump bom irb (List.range bom.blocks.blocks.length) [] =
      Except.error e) :
    parse_bom_document parse data sp true irb = Except.error e := by
  unfold parse_bom_document
  rw [hparse]
  simp only [if_true]
  rw [hrun]

theorem run_block_dump_ok_elim (bom : ParsedBom) (irb : Bool) (idxs : List Nat)
    (acc blocks : List PyValue)
    (h : run_block_dump bom irb idxs acc = Except.ok blocks) :
    blocks = acc ++ idxs.map (mk_entry bom irb) := by
  induction idxs generalizing acc with
  | nil =>
    unfold run_block_dump at h
    injection h with h
    simp [h]
  | cons i rest ih =>
    unfold run_block_dump at h
    cases hab : append_block_entry bom i irb acc with
    | error e => rw [hab] at h; exact Except.noConfusion h
    | ok acc' =>
      rw [hab] at h
      have hacc : acc' = acc ++ [mk_entry bom irb i] := by
        unfold append_block_entry at hab
        cases hget : bom.blocks.blocks.get? i with
        | none => rw [hget] at hab; exact Except.noConfusion hab
        | some e =>
          rw [hget] at hab
          cases hraw : bom.block_data i with
          | error er => rw [hraw] at hab; exact Except.noConfusion hab
          | ok raw =>
            rw [hraw] at hab
            injection hab with hab
            unfold mk_entry
            rw [hget, hraw, ← hab]
      subst hacc
      have := ih _ h
      simpa using this

theorem parse_bom_document_ok_shape (parse : List Nat → Except BomError ParsedBom)
    (data : List Nat) (sp : Option String) (ib irb : Bool) (doc : Dict)
    (h : parse_bom_document parse data sp ib irb = Except.ok doc) :
    ∃ bom, parse data = Except.ok bom ∧
      ((ib = false ∧ doc = assembled_doc bom data.length sp PyValue.none) ∨
       (ib = true ∧ ∃ blocks,
         run_block_dump bom irb (List.range bom.blocks.blocks.length) [] =
           Except.ok blocks ∧
         doc = assembled_doc bom data.length sp (.list blocks))) := by
  cases hp : parse data with
  | error e =>
    rw [parse_bom_document_parse_error parse data sp ib irb e hp] at h
    exact Except.noConfusion h
  | ok bom =>
    refine ⟨bom, rfl, ?_⟩
    cases ib with
    | false =>
      left
      refine ⟨rfl, ?_⟩
      rw [parse_bom_document_ok_no_blocks parse data bom sp irb hp] at h
      injection h with h
      exact h.symm
    | true =>
      right
      cases hrun : run_block_dump bom irb (List.range bom.blocks.blocks.length) [] with
      | error e =>
        rw [parse_bom_document_run_error parse data bom sp irb e hp hrun] at h
        exact Except.noConfusion h
      | ok blocks =>
        refine ⟨rfl, blocks, rfl, ?_⟩
        rw [parse_bom_document_run_ok parse data bom sp irb blocks hp hrun] at h
        injection h with h
        exact h.symm

theorem block_entry_dict_empty (e : BomBlocksEntry) (i : Nat) (irb : Bool)
    (tp : RustOutcome BomBlock) :
    dictGet (block_entry_dict e i irb [] tp) "kind" = some (.str "Empty") ∧
    dictGet (block_entry_dict e i irb [] tp) "parse_error" = Option.none := by
  cases irb <;> simp [block_entry_dict, dictSet, dictGet]

theorem block_entry_dict_small (e : BomBlocksEntry) (i : Nat) (irb : Bool)
    (raw : List Nat) (tp : RustOutcome BomBlock)
    (hne : raw ≠ []) (h4 : raw.length < 4) :
    dictGet (block_entry_dict e i irb raw tp) "kind" = some (.str "Unknown") ∧
    dictGet (block_entry_dict e i irb raw tp) "parse_error" =
      some (.str "block too small for type detection") := by
  cases irb <;>
    simp [block_entry_dict, dictSet, dictGet, List.isEmpty_iff, hne, h4]

theorem block_entry_dict_failed (e : BomBlocksEntry) (i : Nat) (irb : Bool)
    (raw : List Nat) (tp : RustOutcome BomBlock)
    (h4 : 4 ≤ raw.length)
    (hfail : (∃ er, tp = RustOutcome.err er) ∨ (∃ p, tp = RustOutcome.panicked p)) :
    dictGet (block_entry_dict e i irb raw tp) "kind" = some (.str "Unknown") ∧
    ∃ msg, dictGet (block_entry_dict e i irb raw tp) "parse_error" =
      some (.str msg) := by
  have hne : raw ≠ [] := by
    intro hraw
    rw [hraw] at h4
    simp at h4
  have hlt : ¬ raw.length < 4 := by omega
  rcases hfail with ⟨er, rfl⟩ | ⟨p, rfl⟩
  · refine ⟨?_, er.message, ?_⟩ <;>
      cases irb <;>
      simp [block_entry_dict, dictSet, dictGet, List.isEmpty_iff, hne, hlt]
  · refine ⟨?_, "block parser panicked: " ++ panic_payload_to_string p, ?_⟩ <;>
      cases irb <;>
      simp [block_entry_dict, dictSet, dictGet, List.isEmpty_iff, hne, hlt]

/-- The kind-specific fields never touch the `"raw_hex"` key. -/
theorem decoded_block_fields_get_raw_hex (d : Dict) (b : BomBlock) :
    dictGet (decoded_block_fields d b) "raw_hex" = dictGet d "raw_hex" := by
  cases b <;>
    simp [decoded_block_fields, path_record_fields, dictGet_dictSet_ne]

theorem block_entry_dict_raw_hex (e : BomBlocksEntry) (i : Nat) (raw : List Nat)
    (tp : RustOutcome BomBlock) :
    dictGet (block_entry_dict e i true raw tp) "raw_hex" =
      some (.str (hexEncode raw)) := by
  by_cases h0 : raw = []
  · subst h0; simp [block_entry_dict, dictSet, dictGet]
  · by_cases h4 : raw.length < 4
    · simp [block_entry_dict, dictSet, dictGet, List.isEmpty_iff, h0, h4]
    · have hne : ¬ (raw.isEmpty = true) := by simp [List.isEmpty_iff, h0]
      cases tp with
      | err er => simp [block_entry_dict, dictSet, dictGet, List.isEmpty_iff, h0, h4]
      | panicked p => simp [block_entry_dict, dictSet, dictGet, List.isEmpty_iff, h0, h4]
      | ok b =>
        unfold block_entry_dict
        simp only [reduceIte, if_neg hne, if_neg h4]
        rw [decoded_block_fields_get_raw_hex]
        simp [dictSet, dictGet]

theorem dump_list_length (bom : ParsedBom) (irb : Bool) :
    (dump_list bom irb).length = bom.blocks.blocks.length := by
  simp [dump_list]

theorem dump_list_get (bom : ParsedBom) (irb : Bool) (i : Nat)
    (hi : i < bom.blocks.blocks.length) :
    (dump_list bom irb).get? i = some (mk_entry bom irb i) := by
  unfold dump_list
  rw [List.get?_map, List.get?_range hi]
  rfl

/-- `mk_entry` depends only on the behaviour of the underlying calls at its
own index:  overriding `try_parse` elsewhere leaves it unchanged. -/
theorem mk_entry_congr (bom : ParsedBom) (f : Nat → RustOutcome BomBlock)
    (irb : Bool) (j : Nat) (hj : f j = bom.try_parse j) :
    mk_entry { bom with try_parse := f } irb j = mk_entry bom irb j := by
  unfold mk_entry
  dsimp only
  rw [hj]

/-- The assembled document depends on the blocks value only at the
`"blocks"` key. -/
theorem assembled_doc_get_ne_blocks (bom : ParsedBom) (n : Nat) (sp : Option String)
    (bv bv' : PyValue) (k : String) (hk : k ≠ "blocks") :
    dictGet (assembled_doc bom n sp bv) k = dictGet (assembled_doc bom n sp bv') k := by
  unfold assembled_doc
  by_cases hpk : k = "parse_errors"
  · subst hpk
    by_cases hpe : (pe_after bom).length = 0
    · rw [if_pos hpe, if_pos hpe]; simp
    · rw [if_neg hpe, if_neg hpe]; simp
  · by_cases hpe : (pe_after bom).length = 0
    · rw [if_pos hpe, if_pos hpe,
        dictGet_dictSet_ne _ _ _ _ hpk, dictGet_dictSet_ne _ _ _ _ hpk,
        dictGet_dictSet_ne _ _ _ _ hk, dictGet_dictSet_ne _ _ _ _ hk]
    · rw [if_neg hpe, if_neg hpe,
        dictGet_dictSet_ne _ _ _ _ hpk, dictGet_dictSet_ne _ _ _ _ hpk,
        dictGet_dictSet_ne _ _ _ _ hk, dictGet_dictSet_ne _ _ _ _ hk]

theorem pe_after_get_bom_info (bom : ParsedBom) :
    dictGet (pe_after bom) "bom_info" =
      (sectionErrorMsg bom.bom_info).map PyValue.str := by
  unfold pe_after
  cases sectionErrorMsg bom.bom_info <;>
    cases sectionErrorMsg bom.paths <;>
    cases sectionErrorMsg bom.hl_index <;>
    cases sectionErrorMsg bom.size64 <;>
    cases sectionErrorMsg bom.vindex <;>
    simp [dictSet, dictGet]

theorem pe_after_get_paths (bom : ParsedBom) :
    dictGet (pe_after bom) "paths" = (sectionErrorMsg bom.paths).map PyValue.str := by
  unfold pe_after
  cases sectionErrorMsg bom.bom_info <;>
    cases sectionErrorMsg bom.paths <;>
    cases sectionErrorMsg bom.hl_index <;>
    cases sectionErrorMsg bom.size64 <;>
    cases sectionErrorMsg bom.vindex <;>
    simp [dictSet, dictGet]

theorem pe_after_get_hl_index (bom : ParsedBom) :
    dictGet (pe_after bom) "hl_index" = (sectionErrorMsg bom.hl_index).map PyValue.str := by
  unfold pe_after
  cases sectionErrorMsg bom.bom_info <;>
    cases sectionErrorMsg bom.paths <;>
    cases sectionErrorMsg bom.hl_index <;>
    cases sectionErrorMsg bom.size64 <;>
    cases sectionErrorMsg bom.vindex <;>
    simp [dictSet, dictGet]

theorem pe_after_get_size64 (bom : ParsedBom) :
    dictGet (pe_after bom) "size64" = (sectionErrorMsg bom.size64).map PyValue.str := by
  unfold pe_after
  cases sectionErrorMsg bom.bom_info <;>
    cases sectionErrorMsg bom.paths <;>
    cases sectionErrorMsg bom.hl_index <;>
    cases sectionErrorMsg bom.size64 <;>
    cases sectionErrorMsg bom.vindex <;>
    simp [dictSet, dictGet]

theorem pe_after_get_vindex (bom : ParsedBom) :
    dictGet (pe_after bom) "vindex" = (sectionErrorMsg bom.vindex).map PyValue.str := by
  unfold pe_after
  cases sectionErrorMsg bom.bom_info <;>
    cases sectionErrorMsg bom.paths <;>
    cases sectionErrorMsg bom.hl_index <;>
    cases sectionErrorMsg bom.size64 <;>
    cases sectionErrorMsg bom.vindex <;>
    simp [dictSet, dictGet]

theorem pe_after_eq_nil_iff (bom : ParsedBom) :
    pe_after bom = [] ↔
      sectionErrorMsg bom.bom_info = Option.none ∧
      sectionErrorMsg bom.paths = Option.none ∧
      sectionErrorMsg bom.hl_index = Option.none ∧
      sectionErrorMsg bom.size64 = Option.none ∧
      sectionErrorMsg bom.vindex = Option.none := by
  unfold pe_after
  cases h1 : sectionErrorMsg bom.bom_info <;>
    cases h2 : sectionErrorMsg bom.paths <;>
    cases h3 : sectionErrorMsg bom.hl_index <;>
    cases h4 : sectionErrorMsg bom.size64 <;>
    cases h5 : sectionErrorMsg bom.vindex <;>
    simp [dictSet, dictSet_ne_nil]

theorem safe_bom_call_of_missing {α : Type} (o : RustOutcome α)
    (h : outcomeMissingVar o = true) :
    safe_bom_call o = SafeBomCall.missingVariable := by
  cases o with
  | ok v => simp [outcomeMissingVar] at h
  | panicked p => simp [outcomeMissingVar] at h
  | err e =>
    simp only [outcomeMissingVar] at h
    simp [safe_bom_call, h]

theorem sectionErrorMsg_of_missing {α : Type} (o : RustOutcome α)
    (h : outcomeMissingVar o = true) :
    sectionErrorMsg o = Option.none := by
  unfold sectionErrorMsg
  rw [safe_bom_call_of_missing o h]

theorem sectionPyValue_of_missing (o : RustOutcome (List BomPath))
    (h : outcomeMissingVar o = true) :
    sectionPyValue o = PyValue.none := by
  unfold sectionPyValue
  rw [safe_bom_call_of_missing o h]

theorem bomInfoPyValue_of_missing (o : RustOutcome BomBlockBomInfo)
    (h : outcomeMissingVar o = true) :
    bomInfoPyValue o = PyValue.none := by
  unfold bomInfoPyValue
  rw [safe_bom_call_of_missing o h]

theorem sectionErrorOf_of_missing (bom : ParsedBom) (s : SectionName)
    (h : sectionMissingOf bom s = true) :
    sectionErrorOf bom s = Option.none := by
  cases s <;>
    exact sectionErrorMsg_of_missing _ h

theorem sectionDocValue_of_missing (bom : ParsedBom) (s : SectionName)
    (h : sectionMissingOf bom s = true) :
    sectionDocValue bom s = PyValue.none := by
  cases s with
  | bom_info => exact bomInfoPyValue_of_missing _ h
  | paths => exact sectionPyValue_of_missing _ h
  | hl_index => exact sectionPyValue_of_missing _ h
  | size64 => exact sectionPyValue_of_missing _ h
  | vindex => exact sectionPyValue_of_missing _ h

theorem sectionPyValue_of_error (o : RustOutcome (List BomPath)) (msg : String)
    (h : sectionErrorMsg o = some msg) :
    sectionPyValue o = PyValue.none := by
  unfold sectionErrorMsg at h
  unfold sectionPyValue
  cases hc : safe_bom_call o <;> rw [hc] at h <;> simp_all

theorem bomInfoPyValue_of_error (o : RustOutcome BomBlockBomInfo) (msg : String)
    (h : sectionErrorMsg o = some msg) :
    bomInfoPyValue o = PyValue.none := by
  unfold sectionErrorMsg at h
  unfold bomInfoPyValue
  cases hc : safe_bom_call o <;> rw [hc] at h <;> simp_all

theorem sectionDocValue_of_error (bom : ParsedBom) (s : SectionName) (msg : String)
    (h : sectionErrorOf bom s = some msg) :
    sectionDocValue bom s = PyValue.none := by
  cases s with
  | bom_info => exact bomInfoPyValue_of_error _ msg h
  | paths => exact sectionPyValue_of_error _ msg h
  | hl_index => exact sectionPyValue_of_error _ msg h
  | size64 => exact sectionPyValue_of_error _ msg h
  | vindex => exact sectionPyValue_of_error _ msg h

theorem assembled_doc_get_section (bom : ParsedBom) (n : Nat) (sp : Option String)
    (bv : PyValue) (s : SectionName) :
    dictGet (assembled_doc bom n sp bv) s.key = some (sectionDocValue bom s) := by
  cases s <;>
    simp [SectionName.key, sectionDocValue, assembled_doc_get_bom_info,
      assembled_doc_get_paths, assembled_doc_get_hl_index,
      assembled_doc_get_size64, assembled_doc_get_vindex]

theorem pe_after_get_section (bom : ParsedBom) (s : SectionName) :
    dictGet (pe_after bom) s.key = (sectionErrorOf bom s).map PyValue.str := by
  cases s <;>
    simp [SectionName.key, sectionErrorOf, pe_after_get_bom_info,
      pe_after_get_paths, pe_after_get_hl_index, pe_after_get_size64,
      pe_after_get_vindex]

theorem pe_after_records (bom : ParsedBom) (s : SectionName) (msg : String)
    (h : sectionErrorOf bom s = some msg) :
    pe_after bom ≠ [] ∧ dictGet (pe_after bom) s.key = some (.str msg) := by
  constructor
  · intro hnil
    have hall := (pe_after_eq_nil_iff bom).mp hnil
    cases s <;> unfold sectionErrorOf at h <;> simp_all
  · rw [pe_after_get_section, h]
    rfl

theorem assembled_doc_parse_errors_of_error (bom : ParsedBom) (n : Nat)
    (sp : Option String) (bv : PyValue) (s : SectionName) (msg : String)
    (h : sectionErrorOf bom s = some msg) :
    ∃ pe, dictGet (assembled_doc bom n sp bv) "parse_errors" =
        some (PyValue.dict pe) ∧ pe ≠ [] ∧
      dictGet pe s.key = some (.str msg) := by
  obtain ⟨hne, hget⟩ := pe_after_records bom s msg h
  refine ⟨pe_after bom, ?_, hne, hget⟩
  rw [assembled_doc_get_parse_errors]
  rw [if_neg (fun hlen => hne (List.length_eq_zero.mp hlen))]

theorem sampleBom_blockDataOk : sampleBom.blockDataOk := by
  intro i hi
  simp [sampleBom] at hi
  interval_cases i
  · exact ⟨[171, 205], rfl⟩
  · exact ⟨[], rfl⟩

theorem failBom_blockDataOk : failBom.blockDataOk := by
  intro i hi
  have h1 : i < 1 := by simpa [failBom] using hi
  have h0 : i = 0 := by omega
  subst h0
  exact ⟨[1, 2, 3, 4], rfl⟩

theorem assembled_doc_parse_errors_iff (bom : ParsedBom) (n : Nat)
    (sp : Option String) (bv : PyValue) :
    (dictGet (assembled_doc bom n sp bv) "parse_errors" = some PyValue.none ↔
      sectionErrorOf bom .bom_info = Option.none ∧
      sectionErrorOf bom .paths = Option.none ∧
      sectionErrorOf bom .hl_index = Option.none ∧
      sectionErrorOf bom .size64 = Option.none ∧
      sectionErrorOf bom .vindex = Option.none) ∧
    ((∃ s msg, sectionErrorOf bom s = some msg) →
      ∃ pe, dictGet (assembled_doc bom n sp bv) "parse_errors" =
        some (PyValue.dict pe) ∧ pe ≠ []) := by
  constructor
  · rw [assembled_doc_get_parse_errors]
    by_cases hlen : (pe_after bom).length = 0
    · rw [if_pos hlen]
      have hall := (pe_after_eq_nil_iff bom).mp (List.length_eq_zero.mp hlen)
      exact iff_of_true rfl hall
    · rw [if_neg hlen]
      have hne : pe_after bom ≠ [] := fun hnil => hlen (by simp [hnil])
      refine iff_of_false ?_ ?_
      · intro hsome
        injection hsome with hv
        exact PyValue.noConfusion hv
      · intro hall
        exact hne ((pe_after_eq_nil_iff bom).mpr hall)
  · rintro ⟨s, msg, hs⟩
    obtain ⟨pe, hpe, hne, _⟩ := assembled_doc_parse_errors_of_error bom n sp bv s msg hs
    exact ⟨pe, hpe, hne⟩

theorem assembled_doc_missing_section (bom : ParsedBom) (n : Nat)
    (sp : Option String) (bv : PyValue) (s : SectionName)
    (hmiss : sectionMissingOf bom s = true) :
    dictGet (assembled_doc bom n sp bv) s.key = some PyValue.none ∧
    (∀ pe, dictGet (assembled_doc bom n sp bv) "parse_errors" =
        some (PyValue.dict pe) →
      dictGet pe s.key = Option.none) := by
  constructor
  · rw [assembled_doc_get_section, sectionDocValue_of_missing bom s hmiss]
  · intro pe hpe
    rw [assembled_doc_get_parse_errors] at hpe
    injection hpe with hv
    by_cases hlen : (pe_after bom).length = 0
    · rw [if_pos hlen] at hv
      exact PyValue.noConfusion hv
    · rw [if_neg hlen] at hv
      injection hv with hv
      subst hv
      rw [pe_after_get_section, sectionErrorOf_of_missing bom s hmiss]
      rfl

theorem assembled_doc_error_section (bom : ParsedBom) (n : Nat)
    (sp : Option String) (bv : PyValue) (s : SectionName) (msg : String)
    (herr : sectionErrorOf bom s = some msg) :
    dictGet (assembled_doc bom n sp bv) s.key = some PyValue.none ∧
    ∃ pe, dictGet (assembled_doc bom n sp bv) "parse_errors" =
        some (PyValue.dict pe) ∧
      dictGet pe s.key = some (PyValue.str msg) := by
  constructor
  · rw [assembled_doc_get_section, sectionDocValue_of_error bom s msg herr]
  · obtain ⟨pe, hpe, _, hget⟩ :=
      assembled_doc_parse_errors_of_error bom n sp bv s msg herr
    exact ⟨pe, hpe, hget⟩

/-! ### The claims -/

/-- C6: decoding is deterministic — for identical byte buffers and identical
settings of the two flags, `parse_bom_bytes` yields identical documents,
equal in every field including the content and ordering of `parse_errors`
(the decode is a pure function of the bytes and flags; the ordered-dict model
makes key order and `parse_errors` order part of the equality). -/
theorem c6_decode_deterministic (parse : List Nat → Except BomError ParsedBom)
    (data1 data2 : List Nat) (ib1 ib2 irb1 irb2 : Bool)
    (hd : data1 = data2) (hib : ib1 = ib2) (hirb : irb1 = irb2) :
    parse_bom_bytes parse data1 ib1 irb1 = parse_bom_bytes parse data2 ib2 irb2 := by
  subst hd
  subst hib
  subst hirb
  rfl

theorem c6_decode_deterministic_witness :
    parse_bom_bytes (fun _ => Except.ok sampleBom) [0, 1] true false =
      parse_bom_bytes (fun _ => Except.ok sampleBom) [0, 1] true false :=
  c6_decode_deterministic (fun _ => Except.ok sampleBom) [0, 1] [0, 1]
    true true false false rfl rfl rfl

/-- C4: when parsing the header, blocks index or variables index fails, the
decode raises a single `BomParseError` and produces no document at all; when
it succeeds (with every block's declared range inside the buffer, spec §8),
a document is returned. -/
theorem c4_fatal_error_or_document (parse : List Nat → Except BomError ParsedBom)
    (data : List Nat) (sp : Option String) (ib irb : Bool) :
    (∀ e, parse data = Except.error e →
      parse_bom_document parse data sp ib irb =
        Except.error (PyErr.bomParseError e.message)) ∧
    (∀ bom, parse data = Except.ok bom → (ib = true → bom.blockDataOk) →
      ∃ doc, parse_bom_document parse data sp ib irb = Except.ok doc) := by
  constructor
  · intro e he
    exact parse_bom_document_parse_error parse data sp ib irb e he
  · intro bom hb hwf
    cases ib with
    | false => exact ⟨_, parse_bom_document_ok_no_blocks parse data bom sp irb hb⟩
    | true =>
      exact ⟨_, parse_bom_document_ok_with_blocks parse data bom sp irb hb (hwf rfl)⟩

theorem c4_fatal_error_or_document_witness :
    parse_bom_document (fun _ => Except.error ⟨false, "bad header"⟩)
        [7] Option.none true false =
      Except.error (PyErr.bomParseError "bad header") ∧
    ∃ doc, parse_bom_document (fun _ => Except.ok sampleBom)
        [7] Option.none true false = Except.ok doc :=
  ⟨(c4_fatal_error_or_document (fun _ => Except.error ⟨false, "bad header"⟩)
      [7] Option.none true false).1 ⟨false, "bad header"⟩ rfl,
   (c4_fatal_error_or_document (fun _ => Except.ok sampleBom)
      [7] Option.none true false).2 sampleBom rfl (fun _ => sampleBom_blockDataOk)⟩

/-- C10: a document from `parse_bom_bytes` never contains a `source_path`
key at all, while a document from `parse_bom_file` always contains
`source_path` equal to the path argument. -/
theorem c10_source_path_key (parse : List Nat → Except BomError ParsedBom)
    (readFile : String → Except String (List Nat)) (data : List Nat)
    (path : String) (ib irb : Bool) :
    (∀ doc, parse_bom_bytes parse data ib irb = Except.ok doc →
      dictGet doc "source_path" = Option.none) ∧
    (∀ doc, parse_bom_file parse readFile path ib irb = Except.ok doc →
      dictGet doc "source_path" = some (PyValue.str path)) := by
  constructor
  · intro doc h
    obtain ⟨bom, hp, hcase⟩ :=
      parse_bom_document_ok_shape parse data Option.none ib irb doc h
    rcases hcase with ⟨_, rfl⟩ | ⟨_, blocks, hrun, rfl⟩ <;>
      simp [assembled_doc_get_source_path]
  · intro doc h
    unfold parse_bom_file at h
    cases hr : readFile path with
    | error e => rw [hr] at h; exact Except.noConfusion h
    | ok data2 =>
      rw [hr] at h
      obtain ⟨bom, hp, hcase⟩ :=
        parse_bom_document_ok_shape parse data2 (some path) ib irb doc h
      rcases hcase with ⟨_, rfl⟩ | ⟨_, blocks, hrun, rfl⟩ <;>
        simp [assembled_doc_get_source_path]

theorem c10_source_path_key_witness :
    dictGet (assembled_doc sampleBom (List.length [7]) Option.none
      (.list (dump_list sampleBom false))) "source_path" = Option.none ∧
    dictGet (assembled_doc sampleBom (List.length [7]) (some "sample.bom")
      (.list (dump_list sampleBom false))) "source_path" =
        some (PyValue.str "sample.bom") :=
  ⟨(c10_source_path_key (fun _ => Except.ok sampleBom) (fun _ => Except.ok [7])
      [7] "sample.bom" true false).1 _
      (parse_bom_document_ok_with_blocks (fun _ => Except.ok sampleBom) [7]
        sampleBom Option.none false rfl sampleBom_blockDataOk),
   (c10_source_path_key (fun _ => Except.ok sampleBom) (fun _ => Except.ok [7])
      [7] "sample.bom" true false).2 _
      (parse_bom_document_ok_with_blocks (fun _ => Except.ok sampleBom) [7]
        sampleBom (some "sample.bom") false rfl sampleBom_blockDataOk)⟩

/-- C8: in every returned document each of `bom_info`, `paths`, `hl_index`,
`size64`, `vindex` and `blocks` is accounted for: its key is present (set to
a decoded value or explicitly `None`), and a section that soft-failed is
additionally recorded by name in `parse_errors` — no section key is ever
silently missing. -/
theorem c8_sections_accounted (parse : List Nat → Except BomError ParsedBom)
    (data : List Nat) (sp : Option String) (ib irb : Bool) (bom : ParsedBom)
    (doc : Dict)
    (hparse : parse data = Except.ok bom)
    (h : parse_bom_document parse data sp ib irb = Except.ok doc) :
    (∀ s : SectionName, dictGet doc s.key = some (sectionDocValue bom s)) ∧
    (∃ v, dictGet doc "blocks" = some v) ∧
    (∀ s msg, sectionErrorOf bom s = some msg →
      ∃ pe, dictGet doc "parse_errors" = some (PyValue.dict pe) ∧
        dictGet pe s.key = some (PyValue.str msg)) := by
  obtain ⟨bom2, hp2, hcase⟩ := parse_bom_document_ok_shape parse data sp ib irb doc h
  rw [hparse] at hp2
  injection hp2 with hp2
  subst hp2
  rcases hcase with ⟨_, rfl⟩ | ⟨_, blocks, hrun, rfl⟩ <;>
    exact ⟨fun s => assembled_doc_get_section bom data.length sp _ s,
      ⟨_, assembled_doc_get_blocks bom data.length sp _⟩,
      fun s msg hs => by
        obtain ⟨pe, hpe, _, hget⟩ :=
          assembled_doc_parse_errors_of_error bom data.length sp _ s msg hs
        exact ⟨pe, hpe, hget⟩⟩

theorem c8_sections_accounted_witness :
    (∀ s : SectionName,
      dictGet (assembled_doc sampleBom (List.length [7]) Option.none
        (.list (dump_list sampleBom false))) s.key =
          some (sectionDocValue sampleBom s)) ∧
    (∃ v, dictGet (assembled_doc sampleBom (List.length [7]) Option.none
      (.list (dump_list sampleBom false))) "blocks" = some v) ∧
    (∀ s msg, sectionErrorOf sampleBom s = some msg →
      ∃ pe, dictGet (assembled_doc sampleBom (List.length [7]) Option.none
          (.list (dump_list sampleBom false))) "parse_errors" =
            some (PyValue.dict pe) ∧
        dictGet pe s.key = some (PyValue.str msg)) :=
  c8_sections_accounted (fun _ => Except.ok sampleBom) [7] Option.none true false
    sampleBom _ rfl
    (parse_bom_document_ok_with_blocks (fun _ => Except.ok sampleBom) [7]
      sampleBom Option.none false rfl sampleBom_blockDataOk)

/-- C7: the `parse_errors` mapping is a non-`None` (and then non-empty) dict
exactly when at least one section soft-failed, and is explicitly `None` when
no soft failure occurred. -/
theorem c7_parse_errors_iff (parse : List Nat → Except BomError ParsedBom)
    (data : List Nat) (sp : Option String) (ib irb : Bool) (bom : ParsedBom)
    (doc : Dict)
    (hparse : parse data = Except.ok bom)
    (h : parse_bom_document parse data sp ib irb = Except.ok doc) :
    (dictGet doc "parse_errors" = some PyValue.none ↔
      sectionErrorOf bom .bom_info = Option.none ∧
      sectionErrorOf bom .paths = Option.none ∧
      sectionErrorOf bom .hl_index = Option.none ∧
      sectionErrorOf bom .size64 = Option.none ∧
      sectionErrorOf bom .vindex = Option.none) ∧
    ((∃ s msg, sectionErrorOf bom s = some msg) →
      ∃ pe, dictGet doc "parse_errors" = some (PyValue.dict pe) ∧ pe ≠ []) := by
  obtain ⟨bom2, hp2, hcase⟩ := parse_bom_document_ok_shape parse data sp ib irb doc h
  rw [hparse] at hp2
  injection hp2 with hp2
  subst hp2
  rcases hcase with ⟨_, rfl⟩ | ⟨_, blocks, hrun, rfl⟩ <;>
    exact assembled_doc_parse_errors_iff bom data.length sp _

theorem c7_parse_errors_iff_witness :
    (dictGet (assembled_doc sampleBom (List.length [7]) Option.none
        (.list (dump_list sampleBom false))) "parse_errors" =
          some PyValue.none ↔
      sectionErrorOf sampleBom .bom_info = Option.none ∧
      sectionErrorOf sampleBom .paths = Option.none ∧
      sectionErrorOf sampleBom .hl_index = Option.none ∧
      sectionErrorOf sampleBom .size64 = Option.none ∧
      sectionErrorOf sampleBom .vindex = Option.none) ∧
    ((∃ s msg, sectionErrorOf sampleBom s = some msg) →
      ∃ pe, dictGet (assembled_doc sampleBom (List.length [7]) Option.none
        (.list (dump_list sampleBom false))) "parse_errors" =
          some (PyValue.dict pe) ∧ pe ≠ []) :=
  c7_parse_errors_iff (fun _ => Except.ok sampleBom) [7] Option.none true false
    sampleBom _ rfl
    (parse_bom_document_ok_with_blocks (fun _ => Except.ok sampleBom) [7]
      sampleBom Option.none false rfl sampleBom_blockDataOk)

/-- C3: when the named variable of an optional top-level section does not
exist in the Variables Index (the underlying call reports `Error::NoVar`),
that section's value in the document is explicitly `None`, and no entry for
that section is added to `parse_errors`. -/
theorem c3_missing_variable_no_error (parse : List Nat → Except BomError ParsedBom)
    (data : List Nat) (sp : Option String) (ib irb : Bool) (bom : ParsedBom)
    (doc : Dict) (s : SectionName)
    (hparse : parse data = Except.ok bom)
    (h : parse_bom_document parse data sp ib irb = Except.ok doc)
    (hmiss : sectionMissingOf bom s = true) :
    dictGet doc s.key = some PyValue.none ∧
    (∀ pe, dictGet doc "parse_errors" = some (PyValue.dict pe) →
      dictGet pe s.key = Option.none) := by
  obtain ⟨bom2, hp2, hcase⟩ := parse_bom_document_ok_shape parse data sp ib irb doc h
  rw [hparse] at hp2
  injection hp2 with hp2
  subst hp2
  rcases hcase with ⟨_, rfl⟩ | ⟨_, blocks, hrun, rfl⟩ <;>
    exact assembled_doc_missing_section bom data.length sp _ s hmiss

theorem c3_missing_variable_no_error_witness :
    dictGet (assembled_doc sampleBom (List.length [7]) Option.none
      (.list (dump_list sampleBom false))) (SectionName.paths).key =
        some PyValue.none ∧
    (∀ pe, dictGet (assembled_doc sampleBom (List.length [7]) Option.none
        (.list (dump_list sampleBom false))) "parse_errors" =
          some (PyValue.dict pe) →
      dictGet pe (SectionName.paths).key = Option.none) :=
  c3_missing_variable_no_error (fun _ => Except.ok sampleBom) [7] Option.none
    true false sampleBom _ SectionName.paths rfl
    (parse_bom_document_ok_with_blocks (fun _ => Except.ok sampleBom) [7]
      sampleBom Option.none false rfl sampleBom_blockDataOk) rfl

/-- C2: when a named section's underlying call fails with anything other
than a missing variable (a decode error or a panic), the document records
that section as `None` AND adds an entry under the section's name in
`parse_errors`, while every section key keeps its independently resolved
value and the full block dump is still produced. -/
theorem c2_section_failure_recorded (parse : List Nat → Except BomError ParsedBom)
    (data : List Nat) (sp : Option String) (ib irb : Bool) (bom : ParsedBom)
    (doc : Dict) (s : SectionName) (msg : String)
    (hparse : parse data = Except.ok bom)
    (h : parse_bom_document parse data sp ib irb = Except.ok doc)
    (herr : sectionErrorOf bom s = some msg) :
    dictGet doc s.key = some PyValue.none ∧
    (∃ pe, dictGet doc "parse_errors" = some (PyValue.dict pe) ∧
      dictGet pe s.key = some (PyValue.str msg)) ∧
    (∀ t : SectionName, dictGet doc t.key = some (sectionDocValue bom t)) ∧
    (ib = true → ∃ blocks, dictGet doc "blocks" = some (PyValue.list blocks) ∧
      blocks.length = bom.blocks.blocks.length) := by
  obtain ⟨bom2, hp2, hcase⟩ := parse_bom_document_ok_shape parse data sp ib irb doc h
  rw [hparse] at hp2
  injection hp2 with hp2
  subst hp2
  rcases hcase with ⟨hib, rfl⟩ | ⟨hib, blocks, hrun, rfl⟩
  · obtain ⟨h1, h2⟩ := assembled_doc_error_section bom data.length sp _ s msg herr
    refine ⟨h1, h2, fun t => assembled_doc_get_section bom data.length sp _ t, ?_⟩
    intro hib2
    rw [hib] at hib2
    exact Bool.noConfusion hib2
  · obtain ⟨h1, h2⟩ := assembled_doc_error_section bom data.length sp _ s msg herr
    refine ⟨h1, h2, fun t => assembled_doc_get_section bom data.length sp _ t, ?_⟩
    intro _
    refine ⟨blocks, assembled_doc_get_blocks bom data.length sp _, ?_⟩
    rw [run_block_dump_ok_elim bom irb _ [] blocks hrun]
    simp

theorem c2_section_failure_recorded_witness :
    dictGet (assembled_doc failBom (List.length [7]) Option.none
      (.list (dump_list failBom false))) (SectionName.paths).key =
        some PyValue.none ∧
    (∃ pe, dictGet (assembled_doc failBom (List.length [7]) Option.none
        (.list (dump_list failBom false))) "parse_errors" =
          some (PyValue.dict pe) ∧
      dictGet pe (SectionName.paths).key = some (PyValue.str "kind mismatch")) ∧
    (∀ t : SectionName, dictGet (assembled_doc failBom (List.length [7])
        Option.none (.list (dump_list failBom false))) t.key =
          some (sectionDocValue failBom t)) ∧
    (true = true → ∃ blocks, dictGet (assembled_doc failBom (List.length [7])
        Option.none (.list (dump_list failBom false))) "blocks" =
          some (PyValue.list blocks) ∧
      blocks.length = failBom.blocks.blocks.length) :=
  c2_section_failure_recorded (fun _ => Except.ok failBom) [7] Option.none
    true false failBom _ SectionName.paths "kind mismatch" rfl
    (parse_bom_document_ok_with_blocks (fun _ => Except.ok failBom) [7]
      failBom Option.none false rfl failBom_blockDataOk) rfl

/-- C9: the two entry points default to `include_blocks = true` and
`include_raw_block_bytes = false`; with `include_blocks = false` the blocks
list is explicitly `None`; with `include_raw_block_bytes = true` every block
entry of the dump carries `raw_hex`, the hex encoding of that block's raw
bytes (including `Empty` and too-small blocks). -/
theorem c9_flag_defaults_and_raw_hex (parse : List Nat → Except BomError ParsedBom)
    (data : List Nat) (sp : Option String) (bom : ParsedBom)
    (hparse : parse data = Except.ok bom) (hwf : bom.blockDataOk) :
    include_blocks_default = true ∧
    include_raw_block_bytes_default = false ∧
    (∀ irb doc, parse_bom_document parse data sp false irb = Except.ok doc →
      dictGet doc "blocks" = some PyValue.none) ∧
    (∀ doc, parse_bom_document parse data sp true true = Except.ok doc →
      ∃ blocks, dictGet doc "blocks" = some (PyValue.list blocks) ∧
        ∀ i, i < bom.blocks.blocks.length →
          ∃ d raw, blocks.get? i = some (PyValue.dict d) ∧
            bom.block_data i = Except.ok raw ∧
            dictGet d "raw_hex" = some (PyValue.str (hexEncode raw))) := by
  refine ⟨rfl, rfl, ?_, ?_⟩
  · intro irb doc h
    obtain ⟨bom2, hp2, hcase⟩ :=
      parse_bom_document_ok_shape parse data sp false irb doc h
    rcases hcase with ⟨_, rfl⟩ | ⟨hib, _⟩
    · exact assembled_doc_get_blocks bom2 data.length sp PyValue.none
    · exact Bool.noConfusion hib
  · intro doc h
    obtain ⟨bom2, hp2, hcase⟩ :=
      parse_bom_document_ok_shape parse data sp true true doc h
    rw [hparse] at hp2
    injection hp2 with hp2
    subst hp2
    rcases hcase with ⟨hib, _⟩ | ⟨_, blocks, hrun, rfl⟩
    · exact Bool.noConfusion hib
    · refine ⟨blocks, assembled_doc_get_blocks bom data.length sp _, ?_⟩
      intro i hi
      obtain ⟨raw, hraw⟩ := hwf i hi
      obtain ⟨e, hget⟩ : ∃ e, bom.blocks.blocks.get? i = some e :=
        ⟨_, List.get?_eq_get hi⟩
      refine ⟨block_entry_dict e i true raw (bom.try_parse i), raw, ?_, hraw,
        block_entry_dict_raw_hex e i raw (bom.try_parse i)⟩
      rw [run_block_dump_ok_elim bom true _ [] blocks hrun]
      simp only [List.nil_append]
      rw [show (List.range bom.blocks.blocks.length).map (mk_entry bom true) =
        dump_list bom true from rfl]
      rw [dump_list_get bom true i hi]
      unfold mk_entry
      rw [hget, hraw]

theorem c9_flag_defaults_and_raw_hex_witness :
    include_blocks_default = true ∧
    include_raw_block_bytes_default = false ∧
    (∀ irb doc, parse_bom_document (fun _ => Except.ok sampleBom) [7]
        Option.none false irb = Except.ok doc →
      dictGet doc "blocks" = some PyValue.none) ∧
    (∀ doc, parse_bom_document (fun _ => Except.ok sampleBom) [7]
        Option.none true true = Except.ok doc →
      ∃ blocks, dictGet doc "blocks" = some (PyValue.list blocks) ∧
        ∀ i, i < sampleBom.blocks.blocks.length →
          ∃ d raw, blocks.get? i = some (PyValue.dict d) ∧
            sampleBom.block_data i = Except.ok raw ∧
            dictGet d "raw_hex" = some (PyValue.str (hexEncode raw))) :=
  c9_flag_defaults_and_raw_hex (fun _ => Except.ok sampleBom) [7] Option.none
    sampleBom rfl sampleBom_blockDataOk

/-- C5: a block whose raw data has length 0 dumps as kind `Empty` with no
`parse_error`; one of length 1, 2 or 3 dumps as kind `Unknown` with the
too-small `parse_error`; in neither case does decoding that block raise. -/
theorem c5_empty_and_too_small_blocks (parse : List Nat → Except BomError ParsedBom)
    (data : List Nat) (sp : Option String) (irb : Bool) (bom : ParsedBom)
    (doc : Dict) (i : Nat) (raw : List Nat)
    (hparse : parse data = Except.ok bom)
    (h : parse_bom_document parse data sp true irb = Except.ok doc)
    (hi : i < bom.blocks.blocks.length)
    (hraw : bom.block_data i = Except.ok raw)
    (hsmall : raw.length ≤ 3) :
    ∃ blocks d,
      dictGet doc "blocks" = some (PyValue.list blocks) ∧
      blocks.get? i = some (PyValue.dict d) ∧
      (raw = [] →
        dictGet d "kind" = some (PyValue.str "Empty") ∧
        dictGet d "parse_error" = Option.none) ∧
      (raw ≠ [] →
        dictGet d "kind" = some (PyValue.str "Unknown") ∧
        dictGet d "parse_error" =
          some (PyValue.str "block too small for type detection")) ∧
      ∃ lst, append_block_entry bom i irb [] = Except.ok lst := by
  obtain ⟨bom2, hp2, hcase⟩ :=
    parse_bom_document_ok_shape parse data sp true irb doc h
  rw [hparse] at hp2
  injection hp2 with hp2
  subst hp2
  rcases hcase with ⟨hib, _⟩ | ⟨_, blocks, hrun, rfl⟩
  · exact Bool.noConfusion hib
  · obtain ⟨e, hget⟩ : ∃ e, bom.blocks.blocks.get? i = some e :=
      ⟨_, List.get?_eq_get hi⟩
    refine ⟨blocks, block_entry_dict e i irb raw (bom.try_parse i),
      assembled_doc_get_blocks bom data.length sp _, ?_, ?_, ?_,
      ⟨_, append_block_entry_ok bom i irb [] e raw hget hraw⟩⟩
    · rw [run_block_dump_ok_elim bom irb _ [] blocks hrun]
      simp only [List.nil_append]
      rw [show (List.range bom.blocks.blocks.length).map (mk_entry bom irb) =
        dump_list bom irb from rfl]
      rw [dump_list_get bom irb i hi]
      unfold mk_entry
      rw [hget, hraw]
    · intro h0
      subst h0
      exact block_entry_dict_empty e i irb (bom.try_parse i)
    · intro h0
      exact block_entry_dict_small e i irb raw (bom.try_parse i) h0 (by omega)

theorem c5_empty_and_too_small_blocks_witness :
    (∃ blocks d,
      dictGet (assembled_doc sampleBom (List.length [7]) Option.none
        (.list (dump_list sampleBom false))) "blocks" = some (PyValue.list blocks) ∧
      blocks.get? 1 = some (PyValue.dict d) ∧
      ([] = ([] : List Nat) →
        dictGet d "kind" = some (PyValue.str "Empty") ∧
        dictGet d "parse_error" = Option.none) ∧
      (([] : List Nat) ≠ [] →
        dictGet d "kind" = some (PyValue.str "Unknown") ∧
        dictGet d "parse_error" =
          some (PyValue.str "block too small for type detection")) ∧
      ∃ lst, append_block_entry sampleBom 1 false [] = Except.ok lst) ∧
    (∃ blocks d,
      dictGet (assembled_doc sampleBom (List.length [7]) Option.none
        (.list (dump_list sampleBom false))) "blocks" = some (PyValue.list blocks) ∧
      blocks.get? 0 = some (PyValue.dict d) ∧
      ([171, 205] = ([] : List Nat) →
        dictGet d "kind" = some (PyValue.str "Empty") ∧
        dictGet d "parse_error" = Option.none) ∧
      (([171, 205] : List Nat) ≠ [] →
        dictGet d "kind" = some (PyValue.str "Unknown") ∧
        dictGet d "parse_error" =
          some (PyValue.str "block too small for type detection")) ∧
      ∃ lst, append_block_entry sampleBom 0 false [] = Except.ok lst) :=
  ⟨c5_empty_and_too_small_blocks (fun _ => Except.ok sampleBom) [7] Option.none
      false sampleBom _ 1 [] rfl
      (parse_bom_document_ok_with_blocks (fun _ => Except.ok sampleBom) [7]
        sampleBom Option.none false rfl sampleBom_blockDataOk)
      (by simp [sampleBom]) rfl (by simp),
   c5_empty_and_too_small_blocks (fun _ => Except.ok sampleBom) [7] Option.none
      false sampleBom _ 0 [171, 205] rfl
      (parse_bom_document_ok_with_blocks (fun _ => Except.ok sampleBom) [7]
        sampleBom Option.none false rfl sampleBom_blockDataOk)
      (by simp [sampleBom]) rfl (by simp)⟩

/-- C1: a failure while decoding one block — a decode error or an internal
panic surfaced from `BomBlock::try_parse` — never aborts the document
decode: the dump still contains an entry at that block's index with kind
`Unknown` and a parse_error diagnostic, and every other block entry and
every other document key is the same as when that block decodes cleanly
(modelled by overriding `try_parse` at that index with any other outcome). -/
theorem c1_block_failure_isolated (data : List Nat) (sp : Option String)
    (irb : Bool) (bom : ParsedBom) (f : Nat → RustOutcome BomBlock) (i : Nat)
    (hwf : bom.blockDataOk)
    (hi : i < bom.blocks.blocks.length)
    (hfail : (∃ er, bom.try_parse i = RustOutcome.err er) ∨
      (∃ p, bom.try_parse i = RustOutcome.panicked p))
    (hraw4 : ∃ raw, bom.block_data i = Except.ok raw ∧ 4 ≤ raw.length)
    (heq : ∀ j, j ≠ i → f j = bom.try_parse j) :
    ∃ doc doc2 blocks blocks2 d,
      parse_bom_document (fun _ => Except.ok bom) data sp true irb =
        Except.ok doc ∧
      parse_bom_document (fun _ => Except.ok { bom with try_parse := f })
        data sp true irb = Except.ok doc2 ∧
      dictGet doc "blocks" = some (PyValue.list blocks) ∧
      dictGet doc2 "blocks" = some (PyValue.list blocks2) ∧
      blocks.length = bom.blocks.blocks.length ∧
      blocks.get? i = some (PyValue.dict d) ∧
      dictGet d "kind" = some (PyValue.str "Unknown") ∧
      (∃ msg, dictGet d "parse_error" = some (PyValue.str msg)) ∧
      (∀ j, j ≠ i → blocks.get? j = blocks2.get? j) ∧
      (∀ k, k ≠ "blocks" → dictGet doc k = dictGet doc2 k) := by
  obtain ⟨raw, hraw, h4⟩ := hraw4
  obtain ⟨e, hget⟩ : ∃ e, bom.blocks.blocks.get? i = some e :=
    ⟨_, List.get?_eq_get hi⟩
  have hwf2 : ParsedBom.blockDataOk { bom with try_parse := f } := hwf
  have hmaster := parse_bom_document_ok_with_blocks (fun _ => Except.ok bom)
    data bom sp irb rfl hwf
  have hmaster2 := parse_bom_document_ok_with_blocks
    (fun _ => Except.ok { bom with try_parse := f }) data
    { bom with try_parse := f } sp irb rfl hwf2
  refine ⟨assembled_doc bom data.length sp (.list (dump_list bom irb)),
    assembled_doc { bom with try_parse := f } data.length sp
      (.list (dump_list { bom with try_parse := f } irb)),
    dump_list bom irb, dump_list { bom with try_parse := f } irb,
    block_entry_dict e i irb raw (bom.try_parse i),
    hmaster, hmaster2,
    assembled_doc_get_blocks bom data.length sp _,
    assembled_doc_get_blocks { bom with try_parse := f } data.length sp _,
    dump_list_length bom irb, ?_, ?_, ?_, ?_, ?_⟩
  · rw [dump_list_get bom irb i hi]
    unfold mk_entry
    rw [hget, hraw]
  · exact (block_entry_dict_failed e i irb raw (bom.try_parse i) h4 hfail).1
  · exact (block_entry_dict_failed e i irb raw (bom.try_parse i) h4 hfail).2
  · intro j hj
    by_cases hjlen : j < bom.blocks.blocks.length
    · rw [dump_list_get bom irb j hjlen,
        dump_list_get { bom with try_parse := f } irb j hjlen,
        mk_entry_congr bom f irb j (heq j hj)]
    · have h1 : (dump_list bom irb).get? j = Option.none := by
        rw [List.get?_eq_none]
        rw [dump_list_length bom irb]
        omega
      have h2 : (dump_list { bom with try_parse := f } irb).get? j = Option.none := by
        rw [List.get?_eq_none]
        rw [dump_list_length { bom with try_parse := f } irb]
        show bom.blocks.blocks.length ≤ j
        omega
      rw [h1, h2]
  · intro k hk
    exact assembled_doc_get_ne_blocks bom data.length sp
      (.list (dump_list bom irb))
      (.list (dump_list { bom with try_parse := f } irb)) k hk

theorem c1_block_failure_isolated_witness :
    ∃ doc doc2 blocks blocks2 d,
      parse_bom_document (fun _ => Except.ok failBom) [9] Option.none
        true false = Except.ok doc ∧
      parse_bom_document
        (fun _ => Except.ok
          { failBom with try_parse := fun _ => RustOutcome.ok BomBlock.empty })
        [9] Option.none true false = Except.ok doc2 ∧
      dictGet doc "blocks" = some (PyValue.list blocks) ∧
      dictGet doc2 "blocks" = some (PyValue.list blocks2) ∧
      blocks.length = failBom.blocks.blocks.length ∧
      blocks.get? 0 = some (PyValue.dict d) ∧
      dictGet d "kind" = some (PyValue.str "Unknown") ∧
      (∃ msg, dictGet d "parse_error" = some (PyValue.str msg)) ∧
      (∀ j, j ≠ 0 → blocks.get? j = blocks2.get? j) ∧
      (∀ k, k ≠ "blocks" → dictGet doc k = dictGet doc2 k) :=
  c1_block_failure_isolated [9] Option.none false failBom
    (fun _ => RustOutcome.ok BomBlock.empty) 0
    failBom_blockDataOk
    (by simp [failBom])
    (Or.inl ⟨⟨false, "bad tree"⟩, rfl⟩)
    ⟨[1, 2, 3, 4], rfl, by decide⟩
    (by intro j hj; simp [failBom, hj])

end PyAppleBom
